import Mathlib

/-!
Verification of the FCU drone-controller client (control.py / drone_controller.py).

The development shallowly embeds the protocol core of the client:
- the newline framing loop of `DroneController.receive_messages`,
- the JSON response classification of `DroneController.handle_server_message`,
- the session operations `send_command`, `disconnect` and the per-input step of
  `interactive_mode`.

Inbound bytes are modelled as `List Char` (the code decodes each chunk as UTF-8
text and all further processing is on the decoded string). Socket effects are
modelled as explicit operation traces; whether a socket call raises is an
explicit environment flag, since the code catches the exception and the caught
path is part of the control flow being verified.
-/

namespace DroneControl

/-- Whitespace set of Python `str.strip` restricted to ASCII, which is what can
occur in the decoded protocol text: space, tab, newline, carriage return,
vertical tab, form feed. -/
def isPySpace (c : Char) : Bool :=
  c = ' ' || c = '\t' || c = '\n' || c = '\r' || c = '\x0b' || c = '\x0c'

/-- Python `line.strip()`: remove leading and trailing whitespace. -/
def pyStrip (s : List Char) : List Char :=
  ((s.dropWhile isPySpace).reverse.dropWhile isPySpace).reverse

/-- Python `buffer.split('\n', 1)` when `'\n' in buffer`: `some (line, rest)`
splits at the first newline; `none` when the buffer holds no newline. -/
def splitAtNl : List Char → Option (List Char × List Char)
  | [] => none
  | c :: cs =>
    if c = '\n' then some ([], cs)
    else
      match splitAtNl cs with
      | none => none
      | some (l, r) => some (c :: l, r)

theorem splitAtNl_eq_some {s l r : List Char} (h : splitAtNl s = some (l, r)) :
    s = l ++ '\n' :: r := by
  induction s generalizing l r with
  | nil => simp [splitAtNl] at h
  | cons c cs ih =>
    by_cases hc : c = '\n'
    · simp [splitAtNl, hc] at h
      obtain ⟨h1, h2⟩ := h
      simp [hc, h1, h2]
    · simp only [splitAtNl, if_neg hc] at h
      cases heq : splitAtNl cs with
      | none => rw [heq] at h; cases h
      | some p =>
        obtain ⟨l', r'⟩ := p
        rw [heq] at h
        simp only [Option.some.injEq, Prod.mk.injEq] at h
        obtain ⟨h1, h2⟩ := h
        subst h2
        rw [← h1]
        simp [ih heq]

theorem splitAtNl_rest_lt {s l r : List Char} (h : splitAtNl s = some (l, r)) :
    r.length < s.length := by
  have := splitAtNl_eq_some h
  subst this
  simp
  omega

/-- Fuel-indexed unrolling of the framing loop of `receive_messages`
(control.py lines 144-148): `while '\n' in buffer: line, buffer =
buffer.split('\n', 1); if line.strip(): self.handle_server_message(line.strip())`.
Each iteration consumes at least the newline character, so `buf.length` steps
of fuel always run the loop to completion (`recvLoopBody_buffer_no_newline`).
Returns the complete raw lines split off, the stripped lines actually
delivered to the message handler, and the remaining buffer. -/
def recvLoopGo : Nat → List Char → List (List Char) × List (List Char) × List Char
  | 0, buf => ([], [], buf)
  | fuel + 1, buf =>
    match splitAtNl buf with
    | none => ([], [], buf)
    | some (line, rest) =>
      let r := recvLoopGo fuel rest
      (line :: r.1, if (pyStrip line).isEmpty then r.2.1 else pyStrip line :: r.2.1, r.2.2)

/-- The framing loop run to completion on a buffer. -/
def recvLoopBody (buf : List Char) : List (List Char) × List (List Char) × List Char :=
  recvLoopGo buf.length buf

theorem recvLoopGo_no_newline (fuel : Nat) :
    ∀ buf : List Char, buf.length ≤ fuel →
      splitAtNl (recvLoopGo fuel buf).2.2 = none := by
  induction fuel with
  | zero =>
    intro buf hb
    have : buf = [] := List.length_eq_zero.mp (Nat.le_zero.mp hb)
    subst this
    rfl
  | succ fuel ih =>
    intro buf hb
    rw [recvLoopGo]
    cases h : splitAtNl buf with
    | none => simpa using h
    | some p =>
      obtain ⟨line, rest⟩ := p
      have hlt : rest.length < buf.length := splitAtNl_rest_lt h
      simpa using ih rest (by omega)

/-- The fuel budget `buf.length` runs the `while '\n' in buffer` loop until no
newline is left: the model retains exactly the trailing partial line. -/
theorem recvLoopBody_buffer_no_newline (buf : List Char) :
    splitAtNl (recvLoopBody buf).2.2 = none :=
  recvLoopGo_no_newline buf.length buf le_rfl

/-- Reinsert the `'\n'` after each framed line: the left inverse of framing. -/
def joinNl (ls : List (List Char)) : List Char :=
  (ls.map (fun l => l ++ ['\n'])).flatten

theorem recvLoopGo_reconstruct (fuel : Nat) :
    ∀ buf : List Char,
      joinNl (recvLoopGo fuel buf).1 ++ (recvLoopGo fuel buf).2.2 = buf := by
  induction fuel with
  | zero => intro buf; simp [recvLoopGo, joinNl]
  | succ fuel ih =>
    intro buf
    rw [recvLoopGo]
    cases h : splitAtNl buf with
    | none => simp [joinNl]
    | some p =>
      obtain ⟨line, rest⟩ := p
      have hbuf := splitAtNl_eq_some h
      have hrest := ih rest
      simp only [joinNl, List.map_cons, List.flatten_cons, List.append_assoc] at *
      rw [hbuf, hrest]
      simp

/-- One pass of the framing loop reconstructs its input buffer: raw lines with
newlines reinserted, followed by the leftover buffer, equal the buffer fed in. -/
theorem recvLoopBody_reconstruct (buf : List Char) :
    joinNl (recvLoopBody buf).1 ++ (recvLoopBody buf).2.2 = buf :=
  recvLoopGo_reconstruct buf.length buf

/-- Sequence of `recv` chunks fed through the framing loop, threading the
buffer across reads exactly as `receive_messages` does: each chunk is appended
to the buffer and the loop extracts every complete line. Returns all raw lines
produced and the final buffer. -/
def feedChunks : List (List Char) → List Char → List (List Char) × List Char
  | [], buf => ([], buf)
  | c :: cs, buf =>
    let r := recvLoopBody (buf ++ c)
    let s := feedChunks cs r.2.2
    (r.1 ++ s.1, s.2)

theorem feedChunks_reconstruct (chunks : List (List Char)) (buf : List Char) :
    joinNl (feedChunks chunks buf).1 ++ (feedChunks chunks buf).2 =
      buf ++ chunks.flatten := by
  induction chunks generalizing buf with
  | nil => simp [feedChunks, joinNl]
  | cons c cs ih =>
    simp only [feedChunks, List.flatten_cons]
    have h1 := recvLoopBody_reconstruct (buf ++ c)
    have h2 := ih (recvLoopBody (buf ++ c)).2.2
    simp only [joinNl, List.map_append, List.flatten_append] at *
    rw [List.append_assoc, h2, ← List.append_assoc, h1, List.append_assoc]

theorem recvLoopGo_delivered (fuel : Nat) :
    ∀ buf : List Char,
      (recvLoopGo fuel buf).2.1 =
        ((recvLoopGo fuel buf).1.filter (fun l => !(pyStrip l).isEmpty)).map pyStrip := by
  induction fuel with
  | zero => intro buf; simp [recvLoopGo]
  | succ fuel ih =>
    intro buf
    rw [recvLoopGo]
    cases h : splitAtNl buf with
    | none => simp
    | some p =>
      obtain ⟨line, rest⟩ := p
      have hrest := ih rest
      by_cases hempty : (pyStrip line).isEmpty
      · simp [hempty, hrest, List.filter_cons]
      · simp only [Bool.not_eq_true] at hempty
        simp [hempty, hrest, List.filter_cons]

/-- JSON values as produced by `json.loads`. Numbers are modelled as integers;
no claim depends on float arithmetic, only on structural pass-through. -/
inductive Json where
  | null
  | bool (b : Bool)
  | num (n : Int)
  | str (s : String)
  | arr (elems : List Json)
  | obj (fields : List (String × Json))

/-- Lookup in a decoded JSON object. `json.loads` builds a Python dict, where a
duplicated key keeps its last occurrence, hence the last-match semantics. -/
def dictGet : List (String × Json) → String → Option Json
  | [], _ => none
  | (k, v) :: rest, key =>
    match dictGet rest key with
    | some v' => some v'
    | none => if k = key then some v else none

/-- Python `msg_data['key']` guarded by `'key' in msg_data`, for `msg_data` a
dict; a non-dict `msg_data` raises at rendering time in the source and carries
no field, modelled as absent. -/
def jget : Json → String → Option Json
  | .obj fields, key => dictGet fields key
  | _, _ => none

/-- Python `x == "s"` where `x` is an arbitrary decoded JSON value: true only
when `x` is the very string. -/
def typeIs (j : Json) (s : String) : Bool :=
  match j with
  | .str t => t = s
  | _ => false

/-- Classification outcome of `handle_server_message`: which branch of the
type dispatch fires, together with the fields that branch extracts.
`Unstructured` is the `json.JSONDecodeError` fallback (raw line kept);
`HandlerFailure` is the generic `except Exception` fallback, reached when the
decoded value is not an object so attribute access fails. -/
inductive ResponseRecord where
  | Welcome (message : Json) (dataField : Option Json)
  | CommandAck (message : Json) (commandId : Option Json)
  | Status (message : Json)
  | Debug (message : Json) (data : Json)
  | Help (message : Json) (commands : Option Json)
  | ErrorMsg (message : Json)
  | Goodbye (message : Json)
  | Generic (message : Json)
  | Unstructured (rawText : String)
  | HandlerFailure (rawText : String)

/-- Classification performed by `DroneController.handle_server_message`
(control.py lines 158-214). `decoded` is the result of `json.loads(message)`,
`none` when decoding raises `JSONDecodeError`. The function extracts
`type`/`message`/`data` with the source's defaults and dispatches on the type
tag; printing is presentation and out of scope. The catch-all `except` makes
the source total, reflected by the plain (non-`Except`) return type. -/
def handle_server_message (decoded : Option Json) (message : String) : ResponseRecord :=
  match decoded with
  | none => .Unstructured message
  | some (.obj fields) =>
    let msg_type := (dictGet fields "type").getD (.str "unknown")
    let msg_text := (dictGet fields "message").getD (.str "")
    let msg_data := (dictGet fields "data").getD (.obj [])
    if typeIs msg_type "welcome" then .Welcome msg_text (dictGet fields "data")
    else if typeIs msg_type "command" then .CommandAck msg_text (jget msg_data "command_id")
    else if typeIs msg_type "status" then .Status msg_text
    else if typeIs msg_type "debug" then .Debug msg_text msg_data
    else if typeIs msg_type "help" then .Help msg_text (jget msg_data "commands")
    else if typeIs msg_type "error" then .ErrorMsg msg_text
    else if typeIs msg_type "goodbye" then .Goodbye msg_text
    else .Generic msg_text
  | some _ => .HandlerFailure message

/-- Session flags of `DroneController`: `self.connected` and whether
`self.socket` is not `None`. -/
structure SessionState where
  connected : Bool
  hasSocket : Bool
deriving DecidableEq

/-- Whether the socket calls made by the client raise. The source catches
these exceptions, so the caught path is modelled explicitly. -/
structure NetEnv where
  sendRaises : Bool
  closeRaises : Bool
deriving DecidableEq

/-- Socket operations attempted by the client, as an observable trace. -/
inductive SockOp where
  | send (data : String)
  | close
deriving DecidableEq

/-- Model of `DroneController.disconnect` (control.py lines 124-133). When
connected with a live socket, the source runs `send(b"quit\n"); close()` inside
one `try` with a swallowing `except`, then clears `connected`; hence when the
quit send raises, the `close()` call is never reached. Otherwise the call does
nothing. Returns the new state and the trace of attempted socket operations. -/
def disconnect (st : SessionState) (env : NetEnv) : SessionState × List SockOp :=
  if st.connected && st.hasSocket then
    ({ st with connected := false },
     if env.sendRaises then [SockOp.send "quit\n"]
     else [SockOp.send "quit\n", SockOp.close])
  else (st, [])

/-- Result reported by `send_command`: the source returns `False` after the
"Not connected" message, `False` after the "Failed to send" message, and
`True` on success. -/
inductive SendOutcome where
  | ok
  | notConnected
  | sendFailed
deriving DecidableEq

/-- Model of `DroneController.send_command` (control.py lines 291-309): fail
fast when not connected, otherwise attempt to write `command + '\n'`, with a
raise caught and reported as failure. -/
def send_command (st : SessionState) (command : String) (env : NetEnv) :
    SendOutcome × List SockOp :=
  if !st.connected then (.notConnected, [])
  else if env.sendRaises then (.sendFailed, [SockOp.send (command ++ "\n")])
  else (.ok, [SockOp.send (command ++ "\n")])

/-- Command mapping of control.py lines 46-61: token, name, description. -/
def commands : List (String × String × String) :=
  [("a", "Unlock", "Unlock the drone"),
   ("d", "Lock", "Lock the drone"),
   ("t", "Takeoff", "Take off the drone"),
   ("l", "Land", "Land the drone"),
   ("r", "Run", "Start mission"),
   ("s", "Stop", "Stop mission"),
   ("1", "Position 1", "Go to position 1"),
   ("2", "Position 2", "Go to position 2"),
   ("3", "Position 3", "Go to position 3"),
   ("4", "Position 4", "Go to position 4"),
   ("p", "Position Info", "Get current position and orientation"),
   ("i", "Topic Info", "List all ROS topics"),
   ("h", "Help", "Show this help"),
   ("q", "Quit", "Exit the program")]

/-- Keys of the command mapping, against which `command in self.commands`
tests membership. -/
def commandKeys : List String := commands.map (fun c => c.1)

/-- Python `rawInput.strip()` on a string. -/
def pyStripStr (s : String) : String := String.mk (pyStrip s.data)

/-- Visible effect of one iteration of `interactive_mode`'s body. -/
inductive StepAction where
  | skip
  | exitLoop
  | showedHelp
  | clearedScreen
  | sentOk
  | sendFailedMsg
  | notFound
deriving DecidableEq

/-- One iteration of the body of `DroneController.interactive_mode`
(control.py lines 362-402): strip the input, handle the special strings,
then send single-character tokens present in the command mapping; everything
else is reported as "Command not found". -/
def interactive_step (st : SessionState) (rawInput : String) (env : NetEnv) :
    StepAction × List SockOp :=
  let command := pyStripStr rawInput
  if command = "" then (.skip, [])
  else if command = "q" ∨ command = "quit" ∨ command = "exit" then (.exitLoop, [])
  else if command = "h" ∨ command = "help" then (.showedHelp, [])
  else if command = "clear" then (.clearedScreen, [])
  else if command = "ls" ∨ command = "commands" then (.showedHelp, [])
  else if command.length = 1 ∧ commandKeys.contains command = true then
    match send_command st command env with
    | (.ok, ops) => (.sentOk, ops)
    | (_, ops) => (.sendFailedMsg, ops)
  else (.notFound, [])

/-- Loop-local state of `receive_messages`: the two session flags it polls and
the framing buffer it owns. -/
structure LoopState where
  connected : Bool
  running : Bool
  buffer : List Char
deriving DecidableEq

/-- One outcome of `self.socket.recv(1024)` as seen by the loop: a timeout
(`socket.timeout`), a decoded chunk (empty chunk = orderly end of stream,
`if not data: break`), or any other exception. -/
inductive RecvEvent where
  | timeout
  | chunk (data : List Char)
  | readError
deriving DecidableEq

/-- Whether the loop body runs another iteration or falls out of the loop. -/
inductive LoopOutcome where
  | continueLoop
  | exitLoop
deriving DecidableEq

/-- One iteration of `DroneController.receive_messages` (control.py lines
135-156): poll the flags, read, and either retry on timeout, exit on end of
stream or read error (printing a receive error in the latter case when still
connected), or frame the chunk and deliver its complete stripped lines.
Returns the new loop state, the loop outcome, the delivered messages, and
whether a receive error was printed. Note that no branch writes the
`connected` flag. -/
def receive_step (st : LoopState) (ev : RecvEvent) :
    LoopState × LoopOutcome × List (List Char) × Bool :=
  if st.connected && st.running then
    match ev with
    | .timeout => (st, .continueLoop, [], false)
    | .readError => (st, .exitLoop, [], st.connected)
    | .chunk data =>
      if data.isEmpty then (st, .exitLoop, [], false)
      else
        let r := recvLoopBody (st.buffer ++ data)
        ({ st with buffer := r.2.2 }, .continueLoop, r.2.1, false)
  else (st, .exitLoop, [], false)

/-- Claim C1: for every byte sequence fed to the framing loop, split across
arbitrary chunk boundaries, the concatenation of the raw lines it yields (with
a newline reinserted after each) equals the original input up to the trailing
partial line retained in the buffer: no data is lost or duplicated. -/
theorem framer_no_data_loss (chunks : List (List Char)) :
    joinNl (feedChunks chunks []).1 ++ (feedChunks chunks []).2 = chunks.flatten := by
  simpa using feedChunks_reconstruct chunks []

/-- Claim C2: for every input line on which the JSON decode fails, the handler
classifies it as `Unstructured` carrying the raw line text; the handler is a
total function (its catch-all `except` never lets an exception reach the
caller), so it yields a record for every input. -/
theorem parse_decode_failure_unstructured (raw : String) :
    handle_server_message none raw = ResponseRecord.Unstructured raw := rfl

/-- Claim C4: sending a command while the session is not connected reports
`notConnected` and attempts no socket operation, for every command and every
network environment. -/
theorem send_not_connected (st : SessionState) (command : String) (env : NetEnv)
    (h : st.connected = false) :
    send_command st command env = (.notConnected, []) := by
  simp [send_command, h]

theorem send_not_connected_witness :
    send_command ⟨false, true⟩ "t" ⟨false, false⟩ = (.notConnected, []) :=
  send_not_connected ⟨false, true⟩ "t" ⟨false, false⟩ rfl

/-- Claim C7: from every session state and environment, a second `disconnect`
immediately after a first one leaves the state unchanged and performs no
socket operation; the model is total, matching the swallowing `except`. -/
theorem disconnect_idempotent (st : SessionState) (env env' : NetEnv) :
    disconnect (disconnect st env).1 env' = ((disconnect st env).1, []) := by
  obtain ⟨c, s⟩ := st
  cases c <;> cases s <;> simp [disconnect]

/-- Claim C9: a read timeout is benign: the loop continues, delivers nothing,
prints no error, and the state (in particular the connected flag) is unchanged. -/
theorem timeout_benign (st : LoopState)
    (h1 : st.connected = true) (h2 : st.running = true) :
    receive_step st .timeout = (st, .continueLoop, [], false) := by
  simp [receive_step, h1, h2]

theorem timeout_benign_witness :
    receive_step ⟨true, true, []⟩ .timeout = (⟨true, true, []⟩, .continueLoop, [], false) :=
  timeout_benign ⟨true, true, []⟩ rfl rfl

/-- Claim C10: the messages one pass of the receive loop delivers to the
message handler are exactly the extracted raw lines with all leading and
trailing whitespace removed (Python `strip`, not just a trailing carriage
return), with lines that are empty after stripping silently dropped. -/
theorem delivered_lines_stripped (buf : List Char) :
    (recvLoopBody buf).2.1 =
      ((recvLoopBody buf).1.filter (fun l => !(pyStrip l).isEmpty)).map pyStrip :=
  recvLoopGo_delivered buf.length buf

/-- Claim C3: for every decoded JSON object with a recognized `type`, the
handler yields the matching tagged variant with the `message` and `data`
fields passed through verbatim; a missing `type` defaults to `"unknown"`,
which no branch recognizes, so it maps to `Generic`; a missing `message`
defaults to the empty string in every branch. -/
theorem parse_recognized_types :
    (∀ (fields : List (String × Json)) (raw : String),
       dictGet fields "type" = some (.str "welcome") →
       handle_server_message (some (.obj fields)) raw =
         .Welcome ((dictGet fields "message").getD (.str "")) (dictGet fields "data"))
  ∧ (∀ (fields : List (String × Json)) (raw : String),
       dictGet fields "type" = some (.str "command") →
       handle_server_message (some (.obj fields)) raw =
         .CommandAck ((dictGet fields "message").getD (.str ""))
           (jget ((dictGet fields "data").getD (.obj [])) "command_id"))
  ∧ (∀ (fields : List (String × Json)) (raw : String),
       dictGet fields "type" = some (.str "status") →
       handle_server_message (some (.obj fields)) raw =
         .Status ((dictGet fields "message").getD (.str "")))
  ∧ (∀ (fields : List (String × Json)) (raw : String),
       dictGet fields "type" = some (.str "debug") →
       handle_server_message (some (.obj fields)) raw =
         .Debug ((dictGet fields "message").getD (.str ""))
           ((dictGet fields "data").getD (.obj [])))
  ∧ (∀ (fields : List (String × Json)) (raw : String),
       dictGet fields "type" = some (.str "help") →
       handle_server_message (some (.obj fields)) raw =
         .Help ((dictGet fields "message").getD (.str ""))
           (jget ((dictGet fields "data").getD (.obj [])) "commands"))
  ∧ (∀ (fields : List (String × Json)) (raw : String),
       dictGet fields "type" = some (.str "error") →
       handle_server_message (some (.obj fields)) raw =
         .ErrorMsg ((dictGet fields "message").getD (.str "")))
  ∧ (∀ (fields : List (String × Json)) (raw : String),
       dictGet fields "type" = some (.str "goodbye") →
       handle_server_message (some (.obj fields)) raw =
         .Goodbye ((dictGet fields "message").getD (.str "")))
  ∧ (∀ (fields : List (String × Json)) (raw : String),
       dictGet fields "type" = none →
       handle_server_message (some (.obj fields)) raw =
         .Generic ((dictGet fields "message").getD (.str ""))) := by
  refine ⟨?_, ?_, ?_, ?_, ?_, ?_, ?_, ?_⟩ <;>
    intro fields raw h <;>
    simp [handle_server_message, h, typeIs]

theorem parse_recognized_types_witness :
    handle_server_message (some (.obj [("type", Json.str "welcome"),
        ("message", Json.str "hi"), ("data", Json.obj [("a", Json.str "Unlock")])])) "w1" =
      .Welcome (.str "hi") (some (.obj [("a", Json.str "Unlock")]))
  ∧ handle_server_message (some (.obj [("type", Json.str "command"),
        ("message", Json.str "ok"), ("data", Json.obj [("command_id", Json.num 7)])])) "w2" =
      .CommandAck (.str "ok") (some (.num 7))
  ∧ handle_server_message (some (.obj [("type", Json.str "status"),
        ("message", Json.str "armed")])) "w3" =
      .Status (.str "armed")
  ∧ handle_server_message (some (.obj [("type", Json.str "debug"),
        ("message", Json.str "pose"), ("data", Json.obj [("x", Json.num 1)])])) "w4" =
      .Debug (.str "pose") (.obj [("x", Json.num 1)])
  ∧ handle_server_message (some (.obj [("type", Json.str "help"),
        ("message", Json.str "cmds"),
        ("data", Json.obj [("commands", Json.obj [])])])) "w5" =
      .Help (.str "cmds") (some (.obj []))
  ∧ handle_server_message (some (.obj [("type", Json.str "error"),
        ("message", Json.str "bad")])) "w6" =
      .ErrorMsg (.str "bad")
  ∧ handle_server_message (some (.obj [("type", Json.str "goodbye"),
        ("message", Json.str "bye")])) "w7" =
      .Goodbye (.str "bye")
  ∧ handle_server_message (some (.obj [("message", Json.str "noType")])) "w8" =
      .Generic (.str "noType") :=
  ⟨parse_recognized_types.1 _ _ rfl,
   parse_recognized_types.2.1 _ _ rfl,
   parse_recognized_types.2.2.1 _ _ rfl,
   parse_recognized_types.2.2.2.1 _ _ rfl,
   parse_recognized_types.2.2.2.2.1 _ _ rfl,
   parse_recognized_types.2.2.2.2.2.1 _ _ rfl,
   parse_recognized_types.2.2.2.2.2.2.1 _ _ rfl,
   parse_recognized_types.2.2.2.2.2.2.2 _ _ rfl⟩

/-- Claim C5 fails on the code: with a connected session and a live socket,
when the quit send raises, the trace of `disconnect` holds no close operation,
because `send` and `close` share one `try` block and the exception skips
straight to `except`. The claim that close is always attempted is therefore
false at this input. -/
theorem disconnect_close_skipped :
    disconnect ⟨true, true⟩ ⟨true, false⟩ = (⟨false, true⟩, [SockOp.send "quit\n"]) ∧
    SockOp.close ∉ (disconnect ⟨true, true⟩ ⟨true, false⟩).2 := by
  refine ⟨rfl, ?_⟩
  decide

/-- Claim C5 as amended: `disconnect` on a connected session with a live
socket always attempts the quit send first and clears the connected flag even
when a socket call raises; the close is attempted exactly when the quit send
does not raise, and is skipped when it does. -/
theorem disconnect_best_effort (st : SessionState) (env : NetEnv)
    (h1 : st.connected = true) (h2 : st.hasSocket = true) :
    (disconnect st env).2.head? = some (SockOp.send "quit\n")
  ∧ (disconnect st env).1.connected = false
  ∧ (env.sendRaises = false → SockOp.close ∈ (disconnect st env).2)
  ∧ (env.sendRaises = true → SockOp.close ∉ (disconnect st env).2) := by
  obtain ⟨sr, cr⟩ := env
  cases sr <;> simp [disconnect, h1, h2]

theorem disconnect_best_effort_witness :
    (disconnect ⟨true, true⟩ ⟨true, false⟩).2.head? = some (SockOp.send "quit\n")
  ∧ (disconnect ⟨true, true⟩ ⟨true, false⟩).1.connected = false
  ∧ SockOp.close ∉ (disconnect ⟨true, true⟩ ⟨true, false⟩).2 := by
  have h := disconnect_best_effort ⟨true, true⟩ ⟨true, false⟩ rfl rfl
  exact ⟨h.1, h.2.1, h.2.2.2 rfl⟩

/-- Claim C6 fails on the code: on a read error the receive loop exits, but it
performs no teardown: the connected flag is left `true`, so the session still
reports itself as connected after the loop has died. -/
theorem receive_error_leaves_connected :
    (receive_step ⟨true, true, []⟩ .readError).2.1 = .exitLoop ∧
    (receive_step ⟨true, true, []⟩ .readError).1.connected = true :=
  ⟨rfl, rfl⟩

/-- Claim C6 as amended: on end of stream (empty chunk) or a read error the
receive loop exits, printing a receive-error message in the error case while
connected, but it triggers no teardown: the loop state, including the
connected flag, is unchanged. -/
theorem receive_fatal_exit_no_teardown (st : LoopState)
    (h1 : st.connected = true) (h2 : st.running = true) :
    receive_step st .readError = (st, .exitLoop, [], true)
  ∧ receive_step st (.chunk []) = (st, .exitLoop, [], false) := by
  constructor <;> simp [receive_step, h1, h2]

theorem receive_fatal_exit_no_teardown_witness :
    receive_step ⟨true, true, []⟩ .readError = (⟨true, true, []⟩, .exitLoop, [], true)
  ∧ receive_step ⟨true, true, []⟩ (.chunk []) = (⟨true, true, []⟩, .exitLoop, [], false) :=
  receive_fatal_exit_no_teardown ⟨true, true, []⟩ rfl rfl

/-- Claim C8: every single-character token outside the command mapping is
rejected by the interactive loop with "Command not found" before any socket
operation: validation happens against the mapping, never on the wire. -/
theorem invalid_command_no_io (st : SessionState) (raw : String) (env : NetEnv)
    (h1 : (pyStripStr raw).length = 1)
    (h2 : commandKeys.contains (pyStripStr raw) = false) :
    interactive_step st raw env = (.notFound, []) := by
  simp only [interactive_step]
  have hne : ¬ pyStripStr raw = "" := by
    intro h
    rw [h] at h1
    exact absurd h1 (by decide)
  have hquit : ¬(pyStripStr raw = "q" ∨ pyStripStr raw = "quit" ∨ pyStripStr raw = "exit") := by
    rintro (h | h | h)
    · rw [h] at h2; exact absurd h2 (by decide)
    · rw [h] at h1; exact absurd h1 (by decide)
    · rw [h] at h1; exact absurd h1 (by decide)
  have hhelp : ¬(pyStripStr raw = "h" ∨ pyStripStr raw = "help") := by
    rintro (h | h)
    · rw [h] at h2; exact absurd h2 (by decide)
    · rw [h] at h1; exact absurd h1 (by decide)
  have hclear : ¬ pyStripStr raw = "clear" := by
    intro h
    rw [h] at h1
    exact absurd h1 (by decide)
  have hls : ¬(pyStripStr raw = "ls" ∨ pyStripStr raw = "commands") := by
    rintro (h | h) <;> (rw [h] at h1; exact absurd h1 (by decide))
  have hsend : ¬((pyStripStr raw).length = 1 ∧ commandKeys.contains (pyStripStr raw) = true) := by
    rintro ⟨-, hc⟩
    rw [h2] at hc
    cases hc
  rw [if_neg hne, if_neg hquit, if_neg hhelp, if_neg hclear, if_neg hls, if_neg hsend]

theorem invalid_command_no_io_witness :
    interactive_step ⟨true, true⟩ "x" ⟨false, false⟩ = (.notFound, []) :=
  invalid_command_no_io ⟨true, true⟩ "x" ⟨false, false⟩ (by decide) (by decide)

end DroneControl
